import Mathlib

/-!
Shallow embedding of `rcon/gui.py` (the RCON GUI command-session runner):
parameter validation (`GUI.get_rcon_params`), the command session
(`GUI.run_rcon` over the external `rcon.proto.Client` collaborator),
the click handler's fault taxonomy (`GUI.on_button_clicked`), and the
settings persistence blob (`GUI.gui_settings` getter/setter).
-/

namespace Rcon

/-- ASCII whitespace, as stripped by Python's `int(str)` conversion. -/
def isPySpace (ch : Char) : Bool :=
  ch = ' ' || ch = '\t' || ch = '\n' || ch = '\x0d' || ch = '\x0b' || ch = '\x0c'

/-- Drop leading whitespace characters. -/
def stripLeading : List Char → List Char
  | [] => []
  | ch :: rest => if isPySpace ch then stripLeading rest else ch :: rest

/-- Strip whitespace from both ends, as `int(str)` does before parsing. -/
def stripEnds (l : List Char) : List Char :=
  ((stripLeading ((stripLeading l).reverse)).reverse)

/-- ASCII decimal digit test. -/
def isAsciiDigit (ch : Char) : Bool :=
  '0' ≤ ch && ch ≤ '9'

/-- Digits after the first one: Python allows a single underscore between
two digits (`int("2_7")` is 27) but not leading, trailing or doubled. -/
def pyDigitsAux : List Char → Nat → Option Nat
  | [], acc => some acc
  | ch :: rest, acc =>
    if isAsciiDigit ch then pyDigitsAux rest (acc * 10 + (ch.toNat - 48))
    else if ch = '_' then
      match rest with
      | [] => none
      | c2 :: rest2 =>
        if isAsciiDigit c2 then pyDigitsAux rest2 (acc * 10 + (c2.toNat - 48))
        else none
    else none

/-- Parse an unsigned run of decimal digits (at least one, underscores
allowed between digits), the body of a Python base-10 integer literal. -/
def pyParseBody : List Char → Option Nat
  | [] => none
  | ch :: rest =>
    if isAsciiDigit ch then pyDigitsAux rest (ch.toNat - 48) else none

/-- `int(s)` in base 10 as used at `gui.py:154`: strip surrounding
whitespace, optional single sign, then digits; `none` models the
`ValueError` Python raises on any other input. -/
def pyIntParse (s : String) : Option Int :=
  match stripEnds s.toList with
  | '+' :: rest => (pyParseBody rest).map (fun n => (n : Int))
  | '-' :: rest => (pyParseBody rest).map (fun n => -(n : Int))
  | body => (pyParseBody body).map (fun n => (n : Int))

/-- `str(n)` for a Python integer: canonical decimal rendering. -/
def pyStr (n : Int) : String :=
  toString n

/-- `RCONParams` named tuple from `gui.py`: host, port, passwd, command. -/
structure RCONParams where
  host : String
  port : Int
  passwd : String
  command : String
deriving Repr, DecidableEq

/-- `GUI.get_rcon_params` (`gui.py:142-161`): validates the four raw
widget strings in source order (host emptiness, port emptiness, command
emptiness, `int(port)` parse, port range) and returns the `RCONParams`
or the message of the first failing check (the `ValueError` argument). -/
def get_rcon_params (host port passwd command : String) : Except String RCONParams :=
  if host = "" then Except.error "No host specified."
  else if port = "" then Except.error "No port specified."
  else if command = "" then Except.error "No command entered."
  else
    match pyIntParse port with
    | none => Except.error "Invalid port specified."
    | some n =>
      if ¬ (0 ≤ n ∧ n ≤ 65535) then Except.error "Invalid port specified."
      else Except.ok ⟨host, n, passwd, command⟩

example : pyIntParse "27015" = some 27015 := by decide
example : pyIntParse "007" = some 7 := by decide
example : pyIntParse " 42 " = some 42 := by decide
example : pyIntParse "-1" = some (-1) := by decide
example : pyIntParse "+5" = some 5 := by decide
example : pyIntParse "2_7" = some 27 := by decide
example : pyIntParse "_7" = none := by decide
example : pyIntParse "7_" = none := by decide
example : pyIntParse "abc" = none := by decide
example : pyIntParse "" = none := by decide
example : pyIntParse "-" = none := by decide
example : get_rcon_params "" "" "" "" = Except.error "No host specified." := rfl
example : get_rcon_params "h" "70000" "" "c" = Except.error "Invalid port specified." := rfl
example : get_rcon_params "h" "65535" "" "c" = Except.ok ⟨"h", 65535, "", "c"⟩ := rfl

/-- The faults the external client collaborator can raise, per
`gui.py:170-185`: `ConnectionRefusedError`, `socket.timeout`,
`RequestIdMismatch`, `WrongPassword`; `other` stands for any further
exception type (a programming/environment error). -/
inductive NetFault where
  | connectionRefused
  | timedOut
  | requestIdMismatch
  | wrongPassword
  | other (name : String)
deriving Repr, DecidableEq, BEq

/-- Modelled from the spec: the `rcon.proto.Client` collaborator is not
in the sources; per §6 it exposes `connect(host, port) -> Session`,
`Session.authenticate(password)`, and `Session.run(command)`, each
fallible. A behavior fixes the outcome of each operation as a function
of its arguments. -/
structure ClientBehavior where
  connect : String → Int → Except NetFault Unit
  authenticate : String → Except NetFault Unit
  runCmd : String → Except NetFault String

/-- Observable events of one session: which collaborator operations the
runner invoked, in order. -/
inductive Ev where
  | connect
  | authenticate
  | runCmd
  | close
deriving Repr, DecidableEq, BEq

/-- Modelled from the spec: the scoped `with Client(...)` session body of
`GUI.run_rcon` (`gui.py:167-168`); `Client` itself is not in the sources.
Per §4.2/§8 the scope connects, authenticates, runs the one command, and
releases the connection exactly once on every exit path (the spec's own
test demands a `close` even when the transport refuses the connection).
Returns the session outcome plus the trace of collaborator events. -/
def sessionTrace (b : ClientBehavior) (params : RCONParams) :
    Except NetFault String × List Ev :=
  match b.connect params.host params.port with
  | Except.error e => (Except.error e, [Ev.connect, Ev.close])
  | Except.ok _ =>
    match b.authenticate params.passwd with
    | Except.error e => (Except.error e, [Ev.connect, Ev.authenticate, Ev.close])
    | Except.ok _ =>
      match b.runCmd params.command with
      | Except.error e =>
        (Except.error e, [Ev.connect, Ev.authenticate, Ev.runCmd, Ev.close])
      | Except.ok s =>
        (Except.ok s, [Ev.connect, Ev.authenticate, Ev.runCmd, Ev.close])

/-- A fault escaping `GUI.run_rcon`: either the `ValueError` of a failed
validation (carrying its message) or a collaborator fault. -/
inductive Fault where
  | valErr (msg : String)
  | net (f : NetFault)
deriving Repr, DecidableEq, BEq

/-- `GUI.run_rcon` (`gui.py:163-168`): validate the raw strings via
`get_rcon_params`, then run the scoped client session. A validation
failure raises before any client is constructed, so the event trace is
empty on that path. -/
def run_rcon (b : ClientBehavior) (host port passwd command : String) :
    Except Fault String × List Ev :=
  match get_rcon_params host port passwd command with
  | Except.error msg => (Except.error (Fault.valErr msg), [])
  | Except.ok params =>
    match sessionTrace b params with
    | (Except.error f, tr) => (Except.error (Fault.net f), tr)
    | (Except.ok s, tr) => (Except.ok s, tr)

/-- The `except` ladder of `GUI.on_button_clicked` (`gui.py:174-183`):
the dialog message shown for a caught fault, or `none` when the fault
matches no clause and propagates. A `ValueError` shows
`' '.join(error.args)`, which for the single-argument errors raised by
`get_rcon_params` is the message itself. -/
def handleFault : Fault → Option String
  | Fault.valErr msg => some msg
  | Fault.net NetFault.connectionRefused => some "Connection refused."
  | Fault.net NetFault.timedOut => some "Connection timed out."
  | Fault.net NetFault.requestIdMismatch => some "Request ID mismatch."
  | Fault.net NetFault.wrongPassword => some "Invalid password."
  | Fault.net (NetFault.other _) => none

/-- The mutable widget state of the `GUI` window: the text of the five
entries and the save-password checkbox. -/
structure GuiState where
  host : String
  port : String
  passwd : String
  command : String
  result : String
  savepw : Bool
deriving Repr, DecidableEq

/-- `GUI.on_button_clicked` (`gui.py:170-185`): run `run_rcon` on the
current widget texts; on success write the response into the result
entry, on a recognized fault show its dialog message, and let any other
fault propagate. Returns the new state, the dialog message (if any) and
the propagated fault (if any). -/
def on_button_clicked (b : ClientBehavior) (st : GuiState) :
    GuiState × Option String × Option Fault :=
  match (run_rcon b st.host st.port st.passwd st.command).1 with
  | Except.ok text => ({ st with result := text }, none, none)
  | Except.error f =>
    match handleFault f with
    | some msg => (st, some msg, none)
    | none => (st, none, some f)

/-- The JSON blob of `GUI.gui_settings`: each recognized key either
present with a value or absent. -/
structure SettingsJson where
  host : Option String
  port : Option String
  command : Option String
  result : Option String
  savepw : Option Bool
  passwd : Option String
deriving Repr, DecidableEq

/-- The `gui_settings` property getter (`gui.py:86-100`): serialize the
widget texts; `passwd` is added to the blob only when `savepw` is on. -/
def gui_settings (st : GuiState) : SettingsJson :=
  { host := some st.host
    port := some st.port
    command := some st.command
    result := some st.result
    savepw := some st.savepw
    passwd := if st.savepw then some st.passwd else none }

/-- The `gui_settings` property setter (`gui.py:102-110`): every widget
is overwritten from the blob, each missing key defaulting per
`json.get(key, default)` — empty string for the entries, `False` for the
checkbox. -/
def set_gui_settings (json : SettingsJson) : GuiState :=
  { host := json.host.getD ""
    port := json.port.getD ""
    passwd := json.passwd.getD ""
    command := json.command.getD ""
    result := json.result.getD ""
    savepw := json.savepw.getD false }

/-- A collaborator double whose transport refuses every connection. -/
def refusingClient : ClientBehavior where
  connect := fun _ _ => Except.error NetFault.connectionRefused
  authenticate := fun _ => Except.ok ()
  runCmd := fun _ => Except.ok ""

/-- A collaborator double that rejects every password. -/
def rejectingClient : ClientBehavior where
  connect := fun _ _ => Except.ok ()
  authenticate := fun _ => Except.error NetFault.wrongPassword
  runCmd := fun _ => Except.ok ""

/-- A collaborator double that raises an unclassified fault while
running the command. -/
def crashingClient : ClientBehavior where
  connect := fun _ _ => Except.ok ()
  authenticate := fun _ => Except.ok ()
  runCmd := fun _ => Except.error (NetFault.other "OSError")

/-- A collaborator double that answers every command with `resp`. -/
def okClient (resp : String) : ClientBehavior where
  connect := fun _ _ => Except.ok ()
  authenticate := fun _ => Except.ok ()
  runCmd := fun _ => Except.ok resp

/-- Widget state holding valid connection parameters. -/
def validState : GuiState :=
  ⟨"localhost", "27015", "secret", "status", "old", false⟩

/-- C2: the four raw strings are validated in exactly the source order —
host emptiness, port emptiness, command emptiness, port parseability,
port range — and the message surfaced is that of the first failing
check, with the four fixed texts. -/
theorem validation_order (h p pw c : String) :
    (h = "" → get_rcon_params h p pw c = Except.error "No host specified.") ∧
    (h ≠ "" → p = "" → get_rcon_params h p pw c = Except.error "No port specified.") ∧
    (h ≠ "" → p ≠ "" → c = "" →
      get_rcon_params h p pw c = Except.error "No command entered.") ∧
    (h ≠ "" → p ≠ "" → c ≠ "" → pyIntParse p = none →
      get_rcon_params h p pw c = Except.error "Invalid port specified.") ∧
    (∀ n : Int, h ≠ "" → p ≠ "" → c ≠ "" → pyIntParse p = some n →
      ¬ (0 ≤ n ∧ n ≤ 65535) →
      get_rcon_params h p pw c = Except.error "Invalid port specified.") := by
  refine ⟨?_, ?_, ?_, ?_, ?_⟩
  · intro hh; simp [get_rcon_params, hh]
  · intro hh hp; simp [get_rcon_params, hh, hp]
  · intro hh hp hc; simp [get_rcon_params, hh, hp, hc]
  · intro hh hp hc hn; simp [get_rcon_params, hh, hp, hc, hn]
  · intro n hh hp hc hn hrange; simp [get_rcon_params, hh, hp, hc, hn, hrange]

/-- Witness for C2: every branch of the precedence, at concrete inputs;
in particular empty host together with empty port surfaces the host
message. -/
theorem validation_order_witness :
    get_rcon_params "" "" "" "" = Except.error "No host specified." ∧
    get_rcon_params "h" "" "" "" = Except.error "No port specified." ∧
    get_rcon_params "h" "1" "" "" = Except.error "No command entered." ∧
    get_rcon_params "h" "x1" "" "c" = Except.error "Invalid port specified." ∧
    get_rcon_params "h" "70000" "" "c" = Except.error "Invalid port specified." :=
  ⟨(validation_order "" "" "" "").1 rfl,
   (validation_order "h" "" "" "").2.1 (by decide) rfl,
   (validation_order "h" "1" "" "").2.2.1 (by decide) (by decide) rfl,
   (validation_order "h" "x1" "" "c").2.2.2.1
     (by decide) (by decide) (by decide) (by decide),
   (validation_order "h" "70000" "" "c").2.2.2.2 70000
     (by decide) (by decide) (by decide) (by decide) (by decide)⟩

/-- C1: the click handler maps each of the five recognized fault
categories to its fixed dialog message — the validation message itself,
"Connection refused.", "Connection timed out.", "Request ID mismatch.",
"Invalid password." — and any fault outside the taxonomy propagates out
of `on_button_clicked` unhandled instead of being converted or
swallowed. -/
theorem fault_taxonomy :
    (∀ msg, handleFault (Fault.valErr msg) = some msg) ∧
    handleFault (Fault.net NetFault.connectionRefused) = some "Connection refused." ∧
    handleFault (Fault.net NetFault.timedOut) = some "Connection timed out." ∧
    handleFault (Fault.net NetFault.requestIdMismatch) = some "Request ID mismatch." ∧
    handleFault (Fault.net NetFault.wrongPassword) = some "Invalid password." ∧
    (∀ s, handleFault (Fault.net (NetFault.other s)) = none) ∧
    (∀ (b : ClientBehavior) (st : GuiState) (f : Fault),
      (run_rcon b st.host st.port st.passwd st.command).1 = Except.error f →
      (on_button_clicked b st).2.1 = handleFault f ∧
      (on_button_clicked b st).2.2 = (if handleFault f = none then some f else none)) := by
  refine ⟨fun _ => rfl, rfl, rfl, rfl, rfl, fun _ => rfl, ?_⟩
  intro b st f hrun
  unfold on_button_clicked
  rw [hrun]
  cases hf : handleFault f <;> simp [hf]

/-- Witness for C1: an unclassified fault from the collaborator leaves
the click handler with no dialog and the fault propagating. -/
theorem fault_taxonomy_witness :
    (on_button_clicked crashingClient validState).2.1 = none ∧
    (on_button_clicked crashingClient validState).2.2 =
      some (Fault.net (NetFault.other "OSError")) := by
  have h := fault_taxonomy.2.2.2.2.2.2 crashingClient validState
    (Fault.net (NetFault.other "OSError")) rfl
  exact ⟨h.1.trans rfl, h.2.trans rfl⟩

/-- C3 counterexample: validation accepts the raw port string "007"
(Python `int("007")` is 7), but `str(7)` is `"7"`, not `"007"`, so
re-serializing the validated params does not reproduce the raw port
string exactly. -/
theorem roundtrip_cex :
    get_rcon_params "localhost" "007" "pw" "status" =
      Except.ok ⟨"localhost", 7, "pw", "status"⟩ ∧
    pyStr 7 = "7" ∧ ("7" : String) ≠ "007" :=
  ⟨rfl, rfl, by decide⟩

/-- C3 amended: on successful validation the host, password and command
fields are the raw strings unchanged, and the port field is the integer
parsed from the raw port string; re-serializing reproduces the raw
quadruple exactly whenever `str(port)` equals the raw port string (that
is, the raw string is canonical decimal), which non-canonical inputs
such as "007" violate. -/
theorem roundtrip_amended (h p pw c : String) (r : RCONParams)
    (hr : get_rcon_params h p pw c = Except.ok r) :
    r.host = h ∧ r.passwd = pw ∧ r.command = c ∧
    pyIntParse p = some r.port ∧
    (pyStr r.port = p →
      (r.host, pyStr r.port, r.passwd, r.command) = (h, p, pw, c)) := by
  unfold get_rcon_params at hr
  split_ifs at hr
  cases hp : pyIntParse p with
  | none => rw [hp] at hr; exact Except.noConfusion hr
  | some n =>
    rw [hp] at hr
    dsimp only at hr
    split_ifs at hr
    injection hr with hr
    subst hr
    refine ⟨rfl, rfl, rfl, rfl, ?_⟩
    intro hs
    rw [hs]

/-- Witness for C3 amended: a canonical port string round-trips
exactly. -/
theorem roundtrip_amended_witness :
    (RCONParams.mk "localhost" 27015 "pw" "status").host = "localhost" ∧
    (RCONParams.mk "localhost" 27015 "pw" "status").passwd = "pw" ∧
    (RCONParams.mk "localhost" 27015 "pw" "status").command = "status" ∧
    pyIntParse "27015" = some (RCONParams.mk "localhost" 27015 "pw" "status").port ∧
    (pyStr (RCONParams.mk "localhost" 27015 "pw" "status").port = "27015" →
      ((RCONParams.mk "localhost" 27015 "pw" "status").host,
        pyStr (RCONParams.mk "localhost" 27015 "pw" "status").port,
        (RCONParams.mk "localhost" 27015 "pw" "status").passwd,
        (RCONParams.mk "localhost" 27015 "pw" "status").command) =
      ("localhost", "27015", "pw", "status")) :=
  roundtrip_amended "localhost" "27015" "pw" "status"
    (RCONParams.mk "localhost" 27015 "pw" "status") rfl

/-- C4: on every execution of the scoped session — successful exchange,
rejected authentication, request-id mismatch or transport failure — the
connection is closed exactly once before the runner returns. -/
theorem close_exactly_once (b : ClientBehavior) (params : RCONParams) :
    ((sessionTrace b params).2).count Ev.close = 1 := by
  unfold sessionTrace
  cases b.connect params.host params.port with
  | error e => rfl
  | ok u =>
    cases b.authenticate params.passwd with
    | error e => rfl
    | ok v =>
      cases b.runCmd params.command with
      | error e => rfl
      | ok s => rfl

/-- C5: when validation fails, the runner performs no network
interaction at all: its collaborator event trace is empty, so in
particular `connect` is never invoked. -/
theorem no_network_on_invalid (b : ClientBehavior) (h p pw c msg : String)
    (hv : get_rcon_params h p pw c = Except.error msg) :
    (run_rcon b h p pw c).2 = [] ∧
    ((run_rcon b h p pw c).2).count Ev.connect = 0 := by
  unfold run_rcon
  rw [hv]
  exact ⟨rfl, rfl⟩

/-- Witness for C5: an empty host fails validation and produces no
collaborator events. -/
theorem no_network_on_invalid_witness :
    (run_rcon refusingClient "" "p" "pw" "c").2 = [] ∧
    ((run_rcon refusingClient "" "p" "pw" "c").2).count Ev.connect = 0 :=
  no_network_on_invalid refusingClient "" "p" "pw" "c" "No host specified." rfl

/-- C6: with non-empty host and command and a port string parsing to
the integer n, validation fails with "Invalid port specified." when n
is outside [0, 65535] and succeeds with that integer port — endpoints 0
and 65535 included — when n is inside. -/
theorem port_range (h p pw c : String) (n : Int)
    (hh : h ≠ "") (hp : p ≠ "") (hc : c ≠ "") (hn : pyIntParse p = some n) :
    ((n < 0 ∨ 65535 < n) →
      get_rcon_params h p pw c = Except.error "Invalid port specified.") ∧
    (0 ≤ n → n ≤ 65535 →
      get_rcon_params h p pw c = Except.ok ⟨h, n, pw, c⟩) := by
  constructor
  · intro hout
    have hno : ¬ (0 ≤ n ∧ n ≤ 65535) := by
      rintro ⟨h0, h1⟩
      rcases hout with h2 | h2 <;> omega
    simp [get_rcon_params, hh, hp, hc, hn, hno]
  · intro h0 h1
    simp [get_rcon_params, hh, hp, hc, hn, h0, h1]

/-- Witness for C6: port 65536 is rejected, ports 0 and 65535 are
accepted with those integer values. -/
theorem port_range_witness :
    get_rcon_params "h" "65536" "" "c" = Except.error "Invalid port specified." ∧
    get_rcon_params "h" "0" "" "c" = Except.ok ⟨"h", 0, "", "c"⟩ ∧
    get_rcon_params "h" "65535" "pw" "c" = Except.ok ⟨"h", 65535, "pw", "c"⟩ :=
  ⟨(port_range "h" "65536" "" "c" 65536
      (by decide) (by decide) (by decide) (by decide)).1 (by decide),
   (port_range "h" "0" "" "c" 0
      (by decide) (by decide) (by decide) (by decide)).2 (by decide) (by decide),
   (port_range "h" "65535" "pw" "c" 65535
      (by decide) (by decide) (by decide) (by decide)).2 (by decide) (by decide)⟩

/-- C7: when the collaborator rejects authentication on an established
connection, the session ends in the WrongPassword failure and the
command-execution operation is never invoked. -/
theorem wrong_password_no_exec (b : ClientBehavior) (params : RCONParams)
    (hc : b.connect params.host params.port = Except.ok ())
    (ha : b.authenticate params.passwd = Except.error NetFault.wrongPassword) :
    (sessionTrace b params).1 = Except.error NetFault.wrongPassword ∧
    ((sessionTrace b params).2).count Ev.runCmd = 0 := by
  unfold sessionTrace
  rw [hc, ha]
  exact ⟨rfl, rfl⟩

/-- Witness for C7: the password-rejecting collaborator double. -/
theorem wrong_password_no_exec_witness :
    (sessionTrace rejectingClient ⟨"localhost", 27015, "pw", "status"⟩).1 =
      Except.error NetFault.wrongPassword ∧
    ((sessionTrace rejectingClient ⟨"localhost", 27015, "pw", "status"⟩).2).count
      Ev.runCmd = 0 :=
  wrong_password_no_exec rejectingClient ⟨"localhost", 27015, "pw", "status"⟩ rfl rfl

/-- C8: saving the settings and loading the blob back reproduces host,
port, command, result and savepw; the password is reproduced when
savepw is on, while with savepw off the blob carries no passwd key and
the field reloads as empty. -/
theorem settings_roundtrip (st : GuiState) :
    set_gui_settings (gui_settings st) =
      { st with passwd := if st.savepw then st.passwd else "" } ∧
    (gui_settings st).passwd = (if st.savepw then some st.passwd else none) := by
  cases st with
  | mk h p pw c r s =>
    cases s
    · exact ⟨rfl, rfl⟩
    · exact ⟨rfl, rfl⟩

/-- C9: the raw password is never validated: whenever host, port and
command pass their checks, validation succeeds for every password
string — the empty string included — and the params carry it
unchanged. -/
theorem password_unchecked (h p pw c : String) (n : Int)
    (hh : h ≠ "") (hp : p ≠ "") (hc : c ≠ "")
    (hn : pyIntParse p = some n) (h0 : 0 ≤ n) (h1 : n ≤ 65535) :
    ∃ r, get_rcon_params h p pw c = Except.ok r ∧ r.passwd = pw := by
  refine ⟨⟨h, n, pw, c⟩, ?_, rfl⟩
  simp [get_rcon_params, hh, hp, hc, hn, h0, h1]

/-- Witness for C9: the empty password is accepted. -/
theorem password_unchecked_witness :
    ∃ r, get_rcon_params "localhost" "27015" "" "status" = Except.ok r ∧
      r.passwd = "" :=
  password_unchecked "localhost" "27015" "" "status" 27015
    (by decide) (by decide) (by decide) (by decide) (by decide) (by decide)

/-- C10: on every failed attempt — validation failure, a categorized
session failure, or a propagated fault — the click handler leaves the
result entry (indeed the whole widget state) unchanged; the result text
is overwritten only when the session succeeds. -/
theorem result_preserved_on_failure (b : ClientBehavior) (st : GuiState) :
    (∀ f, (run_rcon b st.host st.port st.passwd st.command).1 = Except.error f →
      (on_button_clicked b st).1 = st) ∧
    (∀ t, (run_rcon b st.host st.port st.passwd st.command).1 = Except.ok t →
      ((on_button_clicked b st).1).result = t) := by
  constructor
  · intro f hf
    unfold on_button_clicked
    rw [hf]
    cases hfd : handleFault f <;> simp [hfd]
  · intro t ht
    unfold on_button_clicked
    rw [ht]

/-- Witness for C10: a refused connection leaves the state untouched; a
successful exchange overwrites the result text. -/
theorem result_preserved_on_failure_witness :
    (on_button_clicked refusingClient validState).1 = validState ∧
    ((on_button_clicked (okClient "players: 3") validState).1).result =
      "players: 3" :=
  ⟨(result_preserved_on_failure refusingClient validState).1
      (Fault.net NetFault.connectionRefused) rfl,
   (result_preserved_on_failure (okClient "players: 3") validState).2
      "players: 3" rfl⟩

end Rcon
